/-
  Verification of the pastas statistics module (pastas/stats.py).

  Shallow embedding conventions:
  * pandas timestamps are modelled as a Gregorian calendar `Date` paired with a
    sub-day tick (`Timestamp`); a pandas `Series` is a list of
    (timestamp, rational) pairs.  Floating point numbers are modelled as exact
    rationals; the float `NaN` that pandas uses for missing resampled values is
    modelled as `none` in `Option ℚ`.
  * External numeric primitives that cannot be represented exactly in ℚ
    (`np.sqrt`, `np.log`) are abstracted as fields of a `Prims` record; the
    pandas `Series.interpolate` primitive is abstracted as a function argument
    `interp` (a concrete denotation of the linear method is also provided for
    evaluation on closed inputs).
  * Python exceptions (`ValueError`, `KeyError`, `AttributeError`) are
    modelled with `Except String`.
-/
import Mathlib

set_option maxRecDepth 100000

namespace Pastas

/-! ## Calendar -/

/-- A Gregorian calendar date, as exposed by pandas timestamps
(`x.year`, `x.month`, `x.day`). -/
structure Date where
  year : Nat
  month : Nat
  day : Nat
deriving DecidableEq

/-- Gregorian leap-year rule. -/
def isLeap (y : Nat) : Bool :=
  (y % 4 == 0 && y % 100 != 0) || (y % 400 == 0)

/-- Number of days in a month of a given year. -/
def daysInMonth (y m : Nat) : Nat :=
  if m = 2 then (if isLeap y then 29 else 28)
  else if m = 4 ∨ m = 6 ∨ m = 9 ∨ m = 11 then 30
  else 31

/-- The day after a given date. -/
def nextDate (d : Date) : Date :=
  if d.day < daysInMonth d.year d.month then ⟨d.year, d.month, d.day + 1⟩
  else if d.month < 12 then ⟨d.year, d.month + 1, 1⟩
  else ⟨d.year + 1, 1, 1⟩

/-- Days in the years `0, …, y-1` (proleptic Gregorian). -/
def daysBeforeYear (y : Nat) : Nat :=
  365 * y + (y + 3) / 4 + (y + 399) / 400 - (y + 99) / 100

/-- Days in the months `1, …, m-1` of year `y`. -/
def daysBeforeMonth (y m : Nat) : Nat :=
  ((List.range' 1 (m - 1)).map (daysInMonth y)).sum

/-- Linear day count of a date, used to size daily resampling grids. -/
def toOrdinal (d : Date) : Nat :=
  daysBeforeYear d.year + daysBeforeMonth d.year d.month + d.day

/-- `n + 1` consecutive dates starting at `a`. -/
def dateRangeN (a : Date) : Nat → List Date
  | 0 => [a]
  | n + 1 => a :: dateRangeN (nextDate a) n

/-- All dates from `a` to `b` inclusive (the daily resampling grid). -/
def gridDates (a b : Date) : List Date :=
  dateRangeN a (toOrdinal b - toOrdinal a)

/-- A pandas timestamp: a date plus a sub-day tick. -/
abbrev Timestamp := Date × Nat

/-- A time-indexed numeric series as produced by the series provider:
unique strictly increasing timestamps, no missing values (gaps are missing
timestamps, not sentinel values). -/
abbrev Series := List (Timestamp × ℚ)

/-- A scalar statistic result: `none` models the float `NaN` that signals
"undefined for this input". -/
abbrev Val := Option ℚ

/-- An optional (tmin, tmax) window, passed through to the series provider. -/
abbrev Window := Option Timestamp × Option Timestamp

/-! ## Numeric list helpers (denotations of numpy / pandas reducers) -/

/-- The values of a provider series. -/
def values (s : Series) : List ℚ := s.map (·.2)

/-- The non-missing values of a resampled series (pandas reducers skip NaN). -/
def presentValues (s : List (Date × Option ℚ)) : List ℚ := s.filterMap (·.2)

/-- `sum(xs ** 2)`. -/
def sumSq (l : List ℚ) : ℚ := (l.map (fun x => x ^ 2)).sum

/-- `Series.mean()` as a plain rational (`sum / len`; callers of this version
never see an empty series in the claims considered). -/
def seriesMean (l : List ℚ) : ℚ := l.sum / l.length

/-- `Series.mean()` with the NaN-on-empty behaviour made explicit. -/
def listMean (l : List ℚ) : Option ℚ :=
  if l = [] then none else some (l.sum / l.length)

/-- `np.var` (population variance, ddof = 0). -/
def npVar (l : List ℚ) : ℚ :=
  ((l.map (fun x => (x - seriesMean l) ^ 2)).sum) / l.length

/-- Values sorted ascending (pandas sorts before quantiles/medians). -/
def sortAsc (l : List ℚ) : List ℚ := List.insertionSort (· ≤ ·) l

/-- Values sorted descending. -/
def sortDesc (l : List ℚ) : List ℚ := List.insertionSort (· ≥ ·) l

/-- `Series.nlargest(n)`: the `n` largest values. -/
def nlargest (n : Nat) (l : List ℚ) : List ℚ := (sortDesc l).take n

/-- `Series.nsmallest(n)`: the `n` smallest values. -/
def nsmallest (n : Nat) (l : List ℚ) : List ℚ := (sortAsc l).take n

/-- `Series.median()`: NaN on an empty series, middle element of the sorted
values for odd length, average of the two middle elements for even length. -/
def median (l : List ℚ) : Option ℚ :=
  let s := sortAsc l
  let n := s.length
  if n = 0 then none
  else if n % 2 = 1 then some (s.getD (n / 2) 0)
  else some ((s.getD (n / 2 - 1) 0 + s.getD (n / 2) 0) / 2)

/-- `Series.quantile(q)` with the default linear interpolation between order
statistics; NaN on an empty series. -/
def quantile (q : ℚ) (l : List ℚ) : Option ℚ :=
  let s := sortAsc l
  let n := s.length
  if n = 0 then none
  else
    let pos : ℚ := q * ((n : ℚ) - 1)
    let i : Nat := pos.floor.toNat
    let g : ℚ := pos - (i : ℚ)
    if i + 1 < n then some (s.getD i 0 + g * (s.getD (i + 1) 0 - s.getD i 0))
    else some (s.getD i 0)

/-- The Durbin-Watson statistic of the external statsmodels package:
`sum(diff(e) ** 2) / sum(e ** 2)`. -/
def dwStat (l : List ℚ) : ℚ :=
  (((l.zip l.tail).map (fun p => (p.2 - p.1) ^ 2)).sum) / sumSq l

/-! ## The series provider (external collaborator) -/

/-- One row of the provider's parameter table: a value and a vary-flag. -/
structure Param where
  name : String
  value : ℚ
  vary : Bool
deriving DecidableEq

/-- The external series provider (`self.ml`): four windowed series accessors,
the parameter table, and the provider's `nparam` attribute.

The `nparam` field: modelled from the spec.  The provider object behind
`self.ml` is not part of the statistics module source; the spec's
ParameterTable invariant states that the parameter count used by the
degrees-of-freedom-sensitive statistics is the count of entries whose
vary-flag is true, which theorems below take as a hypothesis on `nparam`. -/
structure Model where
  observations : Window → Series
  simulate : Window → Series
  residuals : Window → Series
  innovations : Window → Series
  parameters : List Param
  nparam : Nat

/-- The free-parameter count computed inline by `bic`/`aic`:
`len(self.ml.parameters[self.ml.parameters.vary == True])`. -/
def freeParamCount (ml : Model) : Nat :=
  (ml.parameters.filter (fun p => p.vary)).length

/-- Abstract denotations of the external scalar primitives `np.sqrt` and
`np.log`. -/
structure Prims where
  sqrt : ℚ → ℚ
  log : ℚ → ℚ

/-! ## Reporter dispatch: bykey -/

/-- `bykey`: dispatch to one of the four provider accessors by string key;
raises `ValueError` for any other string. -/
def bykey (ml : Model) (key : String) (w : Window) : Except String Series :=
  if key = "observations" then .ok (ml.observations w)
  else if key = "simulated" then .ok (ml.simulate w)
  else if key = "residuals" then .ok (ml.residuals w)
  else if key = "innovations" then .ok (ml.innovations w)
  else .error ("no timeseries with key " ++ key)

/-! ## Error and fit metrics -/

/-- `rmse`: `sqrt(sum(residuals ** 2) / N)`. -/
def rmse (pr : Prims) (ml : Model) (w : Window) : ℚ :=
  let res := values (ml.residuals w)
  pr.sqrt (sumSq res / res.length)

/-- `rmsi`: `sqrt(sum(innovations ** 2) / N)`. -/
def rmsi (pr : Prims) (ml : Model) (w : Window) : ℚ :=
  let res := values (ml.innovations w)
  pr.sqrt (sumSq res / res.length)

/-- `sse`: `sum(residuals ** 2)`. -/
def sse (ml : Model) (w : Window) : ℚ :=
  sumSq (values (ml.residuals w))

/-- `avg_dev`: `residuals.mean()`. -/
def avg_dev (ml : Model) (w : Window) : ℚ :=
  seriesMean (values (ml.residuals w))

/-- `evp`: `max(0.0, (np.var(obs) - np.var(res)) / np.var(obs) * 100.0)`. -/
def evp (ml : Model) (w : Window) : ℚ :=
  let res := values (ml.residuals w)
  let obs := values (ml.observations w)
  max 0 ((npVar obs - npVar res) / npVar obs * 100)

/-- Timestamp lookup used to model `sim[obs.index]` (missing labels become
NaN). -/
def lookupTs (s : Series) (t : Timestamp) : Option ℚ :=
  (s.find? (fun p => p.1 = t)).map (·.2)

/-- `np.corrcoef(sim, obs)[0, 1]`: covariance over the product of standard
deviations. -/
def corrcoef (pr : Prims) (xs ys : List ℚ) : ℚ :=
  let n : ℚ := xs.length
  let mx := xs.sum / n
  let my := ys.sum / n
  let cov := (((xs.zip ys).map (fun p => (p.1 - mx) * (p.2 - my))).sum) / n
  cov / (pr.sqrt (npVar xs) * pr.sqrt (npVar ys))

/-- `rsq`: correlation of the simulated series re-aligned to the observation
index with the observations; NaN when the re-alignment leaves a missing
value (numpy propagates NaN through `corrcoef`). -/
def rsq (pr : Prims) (ml : Model) (w : Window) : Val :=
  let obs := ml.observations w
  let sim := ml.simulate w
  let aligned := obs.map (fun p => lookupTs sim p.1)
  if aligned.all (fun v => v.isSome) then
    some (corrcoef pr (aligned.filterMap id) (values obs))
  else none

/-- `rsq_adj`: `1 - (N - 1) / (N - nparam) * RSS / TSS` with the provider's
`nparam` attribute. -/
def rsq_adj (ml : Model) (w : Window) : ℚ :=
  let obs := values (ml.observations w)
  let res := values (ml.residuals w)
  let N : ℚ := obs.length
  let RSS := sumSq res
  let TSS := ((obs.map (fun x => (x - seriesMean obs) ^ 2)).sum)
  1 - (N - 1) / (N - ml.nparam) * RSS / TSS

/-- `bic`: `-2 * log(sum(innovations ** 2)) + nparam * log(n)` with the
vary-flag count computed inline. -/
def bic (pr : Prims) (ml : Model) (w : Window) : ℚ :=
  let innovations := values (ml.innovations w)
  let n := innovations.length
  let nparam := (ml.parameters.filter (fun p => p.vary)).length
  (-2 : ℚ) * pr.log (sumSq innovations) + (nparam : ℚ) * pr.log n

/-- `aic`: `-2 * log(sum(innovations ** 2)) + 2 * nparam` with the vary-flag
count computed inline. -/
def aic (pr : Prims) (ml : Model) (w : Window) : ℚ :=
  let innovations := values (ml.innovations w)
  let nparam := (ml.parameters.filter (fun p => p.vary)).length
  (-2 : ℚ) * pr.log (sumSq innovations) + 2 * (nparam : ℚ)

/-- `durbin_watson`: the statsmodels statistic on a series chosen by key
(default `innovations` at every call site). -/
def durbin_watson (ml : Model) (w : Window) (series : String) : Except String ℚ :=
  (bykey ml series w).map (fun s => dwStat (values s))

/-! ## Daily resampling and fill policies -/

/-- `series.resample('d').<reducer>()`: a contiguous daily grid from the first
to the last date of the series; each day's value is the reducer applied to the
source values falling on that day (`none` — NaN — for days with no source
point). -/
def resampleDaily (red : List ℚ → Option ℚ) (s : Series) : List (Date × Option ℚ) :=
  match s with
  | [] => []
  | p :: rest =>
    let firstD := p.1.1
    let lastD := ((rest.getLastD p).1.1)
    (gridDates firstD lastD).map
      (fun d => (d, red (((p :: rest).filter (fun q => decide (q.1.1 = d))).map (·.2))))

/-- The daily `mean` reducer. -/
def meanRed (l : List ℚ) : Option ℚ := listMean l

/-- The daily `median` reducer. -/
def medianRed (l : List ℚ) : Option ℚ := median l

/-- `limit` semantics of the pandas fill methods: at most `l` consecutive
missing entries are filled (`none` means no limit). -/
def underLimit : Option Nat → Nat → Bool
  | none, _ => true
  | some l, c => c < l

/-- Forward fill with a consecutive-run limit: `last` is the last valid value
seen, `c` the number of missing entries already filled since then. -/
def ffillGo (limit : Option Nat) (last : Option ℚ) (c : Nat) :
    List (Date × Option ℚ) → List (Date × Option ℚ)
  | [] => []
  | (d, some x) :: rest => (d, some x) :: ffillGo limit (some x) 0 rest
  | (d, none) :: rest =>
    match last with
    | some x =>
      if underLimit limit c then (d, some x) :: ffillGo limit (some x) (c + 1) rest
      else (d, none) :: ffillGo limit (some x) (c + 1) rest
    | none => (d, none) :: ffillGo limit none 0 rest

/-- `Series.ffill(limit=limit)`. -/
def ffill (limit : Option Nat) (s : List (Date × Option ℚ)) : List (Date × Option ℚ) :=
  ffillGo limit none 0 s

/-- `Series.bfill(limit=limit)`: forward fill on the reversed series. -/
def bfill (limit : Option Nat) (s : List (Date × Option ℚ)) : List (Date × Option ℚ) :=
  (ffillGo limit none 0 s.reverse).reverse

/-- The fill-policy dispatch of `gxg`: `None` drops missing entries, `'ffill'`
and `'bfill'` fill with a limit, and any other string is handed to the pandas
interpolation primitive (abstracted as `interp`). -/
def applyFill (interp : String → Option Nat → List (Date × Option ℚ) → List (Date × Option ℚ))
    (fill_method : Option String) (limit : Option Nat)
    (series : List (Date × Option ℚ)) : List (Date × Option ℚ) :=
  match fill_method with
  | none => series.filter (fun p => p.2.isSome)
  | some m =>
    if m = "ffill" then ffill limit series
    else if m = "bfill" then bfill limit series
    else interp m limit series

/-- Index of the last valid entry strictly before position `i`, with its
value. -/
def lastValidBefore (vs : List (Option ℚ)) (i : Nat) : Option (Nat × ℚ) :=
  ((List.range i).filterMap (fun j => (vs.getD j none).map (fun v => (j, v)))).getLast?

/-- Index of the first valid entry at or after position `i`, with its value. -/
def firstValidFrom (vs : List (Option ℚ)) (i : Nat) : Option (Nat × ℚ) :=
  ((List.range' i (vs.length - i)).filterMap
    (fun j => (vs.getD j none).map (fun v => (j, v)))).head?

/-- A concrete denotation of `Series.interpolate` for the default `linear`
method on the daily grid: interior missing runs are filled by linear
interpolation on positions, trailing missing entries by the last valid value
(numpy clamps), leading missing entries are left in place; at most `limit`
consecutive missing entries are filled per run. -/
def interpolateLinear (_method : String) (limit : Option Nat)
    (s : List (Date × Option ℚ)) : List (Date × Option ℚ) :=
  let vs := s.map (·.2)
  s.mapIdx (fun i p =>
    match p.2 with
    | some v => (p.1, some v)
    | none =>
      match lastValidBefore vs i with
      | none => (p.1, none)
      | some (j, v1) =>
        if underLimit limit (i - j - 1) then
          match firstValidFrom vs i with
          | some (k, v2) =>
            (p.1, some (v1 + (v2 - v1) * ((i : ℚ) - (j : ℚ)) / ((k : ℚ) - (j : ℚ))))
          | none => (p.1, some v1)
        else (p.1, none))

/-! ## The GXG family -/

/-- The `the14or28` timestamp test of `gxg`. -/
def the14or28 (d : Date) : Bool := d.day == 14 || d.day == 28

/-- `__inspring__`: 14 March through 14 April inclusive
(`(month == 3 and day >= 14) or (month == 4 and day < 15)`). -/
def inspring (d : Date) : Bool :=
  (d.month == 3 && d.day ≥ 14) || (d.month == 4 && d.day < 15)

/-- The calendar-year bins of `series.resample('a')`: every year from the
year of the first index entry to the year of the last one. -/
def yearSpan : List (Date × Option ℚ) → List Nat
  | [] => []
  | p :: rest => List.range' p.1.year ((rest.getLastD p).1.year + 1 - p.1.year)

/-- `series.resample('a').apply(year_agg)`: one aggregated value per calendar
year bin (pandas applies the aggregator to empty bins as well). -/
def resampleYearly (year_agg : List (Date × Option ℚ) → Option ℚ)
    (s : List (Date × Option ℚ)) : List (Nat × Option ℚ) :=
  (yearSpan s).map (fun y => (y, year_agg (s.filter (fun p => decide (p.1.year = y)))))

/-- `yearly.mean()`: pandas skips NaN entries; NaN when nothing remains. -/
def yearlyMean (ys : List (Nat × Option ℚ)) : Option ℚ :=
  listMean (ys.filterMap (·.2))

/-- `ghg`'s per-year aggregator: `s.nlargest(3).mean()` (pandas drops NaN
values first; NaN on an empty bin). -/
def mean_high (s : List (Date × Option ℚ)) : Option ℚ :=
  listMean (nlargest 3 (presentValues s))

/-- `glg`'s per-year aggregator: `s.nsmallest(3).mean()`. -/
def mean_low (s : List (Date × Option ℚ)) : Option ℚ :=
  listMean (nsmallest 3 (presentValues s))

/-- `__mean_spring__`: mean of the in-spring values of a year bin, NaN when
the bin has no in-spring timestamp (pandas `mean` also skips NaN values). -/
def mean_spring (s : List (Date × Option ℚ)) : Option ℚ :=
  if s.any (fun p => inspring p.1) then
    listMean (presentValues (s.filter (fun p => inspring p.1)))
  else none

/-- Result of the `gxg` worker: the early NaN return, a yearly series, or the
mean of the yearly values. -/
inductive GxgResult where
  | nan : GxgResult
  | yearly (ys : List (Nat × Option ℚ)) : GxgResult
  | mean (v : Option ℚ) : GxgResult
deriving DecidableEq

/-- The `gxg` worker: fetch by key, resample daily with the mean reducer,
apply the fill policy, keep only the 14th/28th timestamps (NaN when none),
aggregate per year, and produce the requested output — raising `ValueError`
for an unknown output string. -/
def gxg (interp : String → Option Nat → List (Date × Option ℚ) → List (Date × Option ℚ))
    (year_agg : List (Date × Option ℚ) → Option ℚ) (ml : Model) (w : Window)
    (key : String) (fill_method : Option String) (limit : Option Nat)
    (output : String) : Except String GxgResult :=
  match bykey ml key w with
  | .error e => .error e
  | .ok series =>
    let daily := resampleDaily meanRed series
    let filled := applyFill interp fill_method limit daily
    if filled.any (fun p => the14or28 p.1) then
      let retained := filled.filter (fun p => the14or28 p.1)
      let yearly := resampleYearly year_agg retained
      if output = "yearly" then .ok (.yearly yearly)
      else if output = "mean" then .ok (.mean (yearlyMean yearly))
      else .error (output ++ " is not a valid output option")
    else .ok .nan

/-- `ghg`: classic highest-level characteristic
(source defaults: `key='simulated'`, `fill_method='linear'`, `limit=15`,
`output='mean'`). -/
def ghg (interp : String → Option Nat → List (Date × Option ℚ) → List (Date × Option ℚ))
    (ml : Model) (w : Window) (key : String) (fill_method : Option String)
    (limit : Option Nat) (output : String) : Except String GxgResult :=
  gxg interp mean_high ml w key fill_method limit output

/-- `glg`: classic lowest-level characteristic (same defaults as `ghg`). -/
def glg (interp : String → Option Nat → List (Date × Option ℚ) → List (Date × Option ℚ))
    (ml : Model) (w : Window) (key : String) (fill_method : Option String)
    (limit : Option Nat) (output : String) : Except String GxgResult :=
  gxg interp mean_low ml w key fill_method limit output

/-- `gvg`: classic spring-level characteristic (same defaults as `ghg`). -/
def gvg (interp : String → Option Nat → List (Date × Option ℚ) → List (Date × Option ℚ))
    (ml : Model) (w : Window) (key : String) (fill_method : Option String)
    (limit : Option Nat) (output : String) : Except String GxgResult :=
  gxg interp mean_spring ml w key fill_method limit output

/-! ## Quantile-based estimators -/

/-- `q_ghg`: resample to daily medians, take the `q` quantile
(source default `q=0.94`). -/
def q_ghg (ml : Model) (w : Window) (key : String) (q : ℚ) : Except String Val :=
  (bykey ml key w).map (fun series =>
    quantile q (presentValues (resampleDaily medianRed series)))

/-- `q_glg`: resample to daily medians, take the `q` quantile
(source default `q=0.06`). -/
def q_glg (ml : Model) (w : Window) (key : String) (q : ℚ) : Except String Val :=
  (bykey ml key w).map (fun series =>
    quantile q (presentValues (resampleDaily medianRed series)))

/-- `q_gvg`: resample to daily medians; if any day is in spring, the median of
the in-spring values, otherwise NaN. -/
def q_gvg (ml : Model) (w : Window) (key : String) : Except String Val :=
  (bykey ml key w).map (fun series =>
    let daily := resampleDaily medianRed series
    if daily.any (fun p => inspring p.1) then
      median (presentValues (daily.filter (fun p => inspring p.1)))
    else none)

/-- NaN-propagating subtraction of two scalar results. -/
def osub : Val → Val → Val
  | some a, some b => some (a - b)
  | _, _ => none

/-- `d_ghg`: `q_ghg(key='simulated') - q_ghg(key='observations')` with the
source default `q=0.94`. -/
def d_ghg (ml : Model) (w : Window) : Except String Val := do
  let a ← q_ghg ml w "simulated" (94 / 100)
  let b ← q_ghg ml w "observations" (94 / 100)
  pure (osub a b)

/-- `d_glg`: `q_glg(key='simulated') - q_glg(key='observations')` with the
source default `q=0.06`. -/
def d_glg (ml : Model) (w : Window) : Except String Val := do
  let a ← q_glg ml w "simulated" (6 / 100)
  let b ← q_glg ml w "observations" (6 / 100)
  pure (osub a b)

/-- `d_gvg`: `q_gvg(key='simulated') - q_gvg(key='observations')`. -/
def d_gvg (ml : Model) (w : Window) : Except String Val := do
  let a ← q_gvg ml w "simulated"
  let b ← q_gvg ml w "observations"
  pure (osub a b)

/-! ## Reporter layer -/

/-- The `getattr(self, k)(tmin=tmin, tmax=tmax)` dispatch over the statistic
identifiers registered in the engine (the `ops` table plus `durbin_watson`,
which `many` uses by default); an unknown identifier is an
`AttributeError`.  Scalar statistics are wrapped as present values; `rsq`
and `durbin_watson` keep their own NaN/exception behaviour. -/
def getStat (pr : Prims) (ml : Model) (w : Window) : String → Except String Val
  | "evp" => .ok (some (evp ml w))
  | "rmse" => .ok (some (rmse pr ml w))
  | "rmsi" => .ok (some (rmsi pr ml w))
  | "sse" => .ok (some (sse ml w))
  | "avg_dev" => .ok (some (avg_dev ml w))
  | "rsq" => .ok (rsq pr ml w)
  | "rsq_adj" => .ok (some (rsq_adj ml w))
  | "bic" => .ok (some (bic pr ml w))
  | "aic" => .ok (some (aic pr ml w))
  | "durbin_watson" => (durbin_watson ml w "innovations").map (fun v => some v)
  | k => .error ("AttributeError: " ++ k)

/-- The default statistics of `many`. -/
def defaultStats : List String := ["evp", "rmse", "rmsi", "durbin_watson"]

/-- `many`: for an ordered list of statistic identifiers (the default list
when the argument is omitted or empty), a single row with one column per
identifier holding the statistic's value. -/
def many (pr : Prims) (ml : Model) (w : Window) (stats : List String) :
    Except String (List (String × Val)) :=
  let stats := if stats = [] then defaultStats else stats
  stats.mapM (fun k => (getStat pr ml w k).map (fun v => (k, v)))

/-- The value `many`/`summary` would store for an identifier (total version of
`getStat` for stating theorems; unknown identifiers map to `none`). -/
def statValue (pr : Prims) (ml : Model) (w : Window) (k : String) : Val :=
  match getStat pr ml w k with
  | .ok v => v
  | .error _ => none

/-- The `'basic'` preset of `summary` (method name, human-readable label). -/
def basicLabels : List (String × String) :=
  [("evp", "Explained variance percentage"),
   ("rmse", "Root mean squared error"),
   ("avg_dev", "Average Deviation"),
   ("rsq", "Pearson R^2"),
   ("bic", "Bayesian Information Criterion"),
   ("aic", "Akaike Information Criterion")]

/-- The `'dutch'` preset of `summary`. -/
def dutchLabels : List (String × String) :=
  [("q_ghg", "Gemiddeld Hoge Grondwaterstand"),
   ("q_glg", "Gemiddeld Lage Grondwaterstand"),
   ("q_gvg", "Gemiddelde Voorjaarsgrondwaterstand"),
   ("d_ghg", "Verschil Gemiddeld Hoge Grondwaterstand"),
   ("d_glg", "Verschil Gemiddeld Lage Grondwaterstand"),
   ("d_gvg", "Verschil Gemiddelde Voorjaarsgrondwaterstand")]

/-- The preset registry `output` of `summary`. -/
def summaryOutput : List (String × List (String × String)) :=
  [("basic", basicLabels), ("dutch", dutchLabels)]

/-- The statistic dispatch used by `summary` (method defaults as at the
`getattr(self, f)(tmin=tmin, tmax=tmax)` call sites). -/
def summaryStat (pr : Prims) (ml : Model) (w : Window) : String → Except String Val
  | "q_ghg" => q_ghg ml w "simulated" (94 / 100)
  | "q_glg" => q_glg ml w "simulated" (6 / 100)
  | "q_gvg" => q_gvg ml w "simulated"
  | "d_ghg" => d_ghg ml w
  | "d_glg" => d_glg ml w
  | "d_gvg" => d_gvg ml w
  | k => getStat pr ml w k

/-- Python tuple comparison on the sort keys of `summary`. -/
def tripleLe (a b : String × String × String) : Bool :=
  a.1 < b.1 || (a.1 = b.1 && (a.2.1 < b.2.1 || (a.2.1 = b.2.1 && a.2.2 ≤ b.2.2)))

/-- `summary`: the `'all'` preset sorts (group key, label, method name)
triples across both groups; otherwise the registry lookup (`KeyError` for an
unknown preset, before any statistic is computed) sorts by (label, method
name).  Each selected statistic is computed and labeled. -/
def summary (pr : Prims) (ml : Model) (w : Window) (selected : String) :
    Except String (List (String × Val)) :=
  if selected = "all" then
    let triples := (summaryOutput.map (fun g => g.2.map (fun fl => (g.1, fl.2, fl.1)))).flatten
    let sel := List.insertionSort (fun a b => tripleLe a b = true) triples
    sel.mapM (fun t => (summaryStat pr ml w t.2.2).map (fun v => (t.2.1, v)))
  else
    match summaryOutput.lookup selected with
    | none => .error ("KeyError: " ++ selected)
    | some d =>
      let triples := d.map (fun fl => ("", fl.2, fl.1))
      let sel := List.insertionSort (fun a b => tripleLe a b = true) triples
      sel.mapM (fun t => (summaryStat pr ml w t.2.2).map (fun v => (t.2.1, v)))

/-! ## Spec-side formulations used for refinement comparisons -/

/-- The scalar carried by a `gxg` mean result (NaN for the early return). -/
def gxgMeanValue : GxgResult → Val
  | .mean v => v
  | _ => none

/-- The spec's reading of `d_ghg` as a difference of the *classic preset*
(the gxg-based `ghg` at its default arguments) between the simulated and the
observed series. -/
def presetDiffGhg (interp : String → Option Nat → List (Date × Option ℚ) → List (Date × Option ℚ))
    (ml : Model) (w : Window) : Except String Val := do
  let a ← ghg interp ml w "simulated" (some "linear") (some 15) "mean"
  let b ← ghg interp ml w "observations" (some "linear") (some 15) "mean"
  pure (osub (gxgMeanValue a) (gxgMeanValue b))

/-- The daily values of a median-resampled series whose date lies in the
spring window, stated from the spec's words. -/
def springVals (daily : List (Date × Option ℚ)) : List ℚ :=
  presentValues (daily.filter (fun p => inspring p.1))

/-- Spec-side description of the `q_gvg` result: NaN when no daily value
falls in the spring window, the median of those values otherwise. -/
def springMedianDaily (daily : List (Date × Option ℚ)) : Val :=
  if springVals daily = [] then none else median (springVals daily)

/-- Spec-side description of the quantile-based characteristic estimators:
the `q` quantile of the daily-median resample of a series. -/
def quantileEstimate (q : ℚ) (s : Series) : Val :=
  quantile q (presentValues (resampleDaily medianRed s))

/-- Spec-side description of the spring characteristic estimator. -/
def springEstimate (s : Series) : Val :=
  springMedianDaily (resampleDaily medianRed s)

/-! ## Concrete instances used as witnesses and counterexamples -/

/-- A timestamp in January 2000. -/
def janTs (d : Nat) : Timestamp := (⟨2000, 1, d⟩, 0)

/-- The unbounded window. -/
def wAll : Window := (none, none)

/-- A provider whose series all consist of the single point 1 January 2000,
so that no 14th/28th remains after resampling. -/
def exModel3 : Model :=
  { observations := fun _ => [(janTs 1, 5)], simulate := fun _ => [(janTs 1, 5)],
    residuals := fun _ => [(janTs 1, 5)], innovations := fun _ => [(janTs 1, 5)],
    parameters := [], nparam := 0 }

/-- A provider whose series consist of the single point 14 January 2000. -/
def exModelW : Model :=
  { observations := fun _ => [(janTs 14, 1)], simulate := fun _ => [(janTs 14, 1)],
    residuals := fun _ => [(janTs 14, 1)], innovations := fun _ => [(janTs 14, 1)],
    parameters := [], nparam := 0 }

/-- Simulated series for the `d_ghg` comparison: 1..20 January 2000 with
values 1..20. -/
def simSeries5 : Series := (List.range' 1 20).map (fun d => (janTs d, (d : ℚ)))

/-- Observed series for the `d_ghg` comparison: constantly zero. -/
def obsSeries5 : Series := (List.range' 1 20).map (fun d => (janTs d, 0))

/-- Provider separating `q_ghg` (0.94 quantile of 20 daily values) from the
classic `ghg` (only 14 January retained). -/
def exModel5 : Model :=
  { observations := fun _ => obsSeries5, simulate := fun _ => simSeries5,
    residuals := fun _ => [], innovations := fun _ => [],
    parameters := [], nparam := 0 }

/-- Provider with retained samples 14/28 January and 14 February 2000. -/
def exModel6 : Model :=
  { observations := fun _ => [(janTs 14, 1), (janTs 28, 2), ((⟨2000, 2, 14⟩, 0), 3)],
    simulate := fun _ => [(janTs 14, 1), (janTs 28, 2), ((⟨2000, 2, 14⟩, 0), 3)],
    residuals := fun _ => [], innovations := fun _ => [],
    parameters := [], nparam := 0 }

/-- Provider whose series is a single point inside the spring window
(20 March 2000). -/
def exModel8 : Model :=
  { observations := fun _ => [((⟨2000, 3, 20⟩, 0), 5)],
    simulate := fun _ => [((⟨2000, 3, 20⟩, 0), 5)],
    residuals := fun _ => [((⟨2000, 3, 20⟩, 0), 5)],
    innovations := fun _ => [((⟨2000, 3, 20⟩, 0), 5)],
    parameters := [], nparam := 0 }

/-- Provider with nonzero observation variance, zero residuals, one free and
one fixed parameter. -/
def exModelP : Model :=
  { observations := fun _ => [(janTs 1, 0), (janTs 2, 2)],
    simulate := fun _ => [(janTs 1, 0), (janTs 2, 2)],
    residuals := fun _ => [(janTs 1, 0), (janTs 2, 0)],
    innovations := fun _ => [(janTs 1, 1)],
    parameters := [⟨"a", 1, true⟩, ⟨"b", 2, false⟩], nparam := 1 }

/-- Identity denotations for the abstract scalar primitives, used to
instantiate witnesses. -/
def prId : Prims := ⟨fun q => q, fun q => q⟩

/-! ## Helper lemmas -/

/-- Population variances are nonnegative. -/
theorem npVar_nonneg (l : List ℚ) : 0 ≤ npVar l := by
  unfold npVar
  apply div_nonneg
  · apply List.sum_nonneg
    intro x hx
    simp only [List.mem_map] at hx
    obtain ⟨y, -, rfl⟩ := hx
    positivity
  · positivity

/-- The median of a one-element series is that element. -/
theorem median_singleton (v : ℚ) : median [v] = some v := by
  with_unfolding_all rfl

/-- The body of `q_gvg` (NaN when no date is in spring, otherwise the median
of the in-spring values) agrees with the spec-side description (NaN when no
value is in spring, otherwise their median). -/
theorem spring_code_eq_spec (daily : List (Date × Option ℚ)) :
    (if daily.any (fun p => inspring p.1) then
      median (presentValues (daily.filter (fun p => inspring p.1)))
    else none) = springMedianDaily daily := by
  by_cases hv : springVals daily = []
  · rw [springMedianDaily, if_pos hv]
    by_cases ha : (daily.any (fun p => inspring p.1)) = true
    · rw [if_pos ha]
      have hv' : presentValues (daily.filter (fun p => inspring p.1)) = [] := hv
      rw [hv']
      rfl
    · rw [if_neg (by simp [ha])]
  · rw [springMedianDaily, if_neg hv]
    have ha : (daily.any (fun p => inspring p.1)) = true := by
      by_contra hc
      apply hv
      have hfalse : (daily.any (fun p => inspring p.1)) = false := by
        simpa using hc
      have hfil : daily.filter (fun p => inspring p.1) = [] :=
        List.filter_eq_nil_iff.mpr (List.any_eq_false.mp hfalse)
      show presentValues (daily.filter (fun p => inspring p.1)) = []
      rw [hfil]
      rfl
    rw [if_pos ha]
    rfl

/-- `mapM` over `Except` succeeds with the mapped list when every element
succeeds. -/
theorem exceptMapM_ok {α β : Type} (f : α → Except String β) (g : α → β) :
    ∀ l : List α, (∀ a ∈ l, f a = .ok (g a)) → l.mapM f = .ok (l.map g)
  | [], _ => rfl
  | x :: xs, h => by
    rw [List.mapM_cons, h x (by simp),
      exceptMapM_ok f g xs (fun a ha => h a (by simp [ha]))]
    rfl

/-! ## Claim theorems -/

/-- C2: `bykey` returns each of the four named provider series unmodified for
its key and fails with a `ValueError` naming the key for any other string. -/
theorem bykey_dispatch (ml : Model) (w : Window) :
    bykey ml "observations" w = .ok (ml.observations w) ∧
    bykey ml "simulated" w = .ok (ml.simulate w) ∧
    bykey ml "residuals" w = .ok (ml.residuals w) ∧
    bykey ml "innovations" w = .ok (ml.innovations w) ∧
    ∀ key : String, key ≠ "observations" → key ≠ "simulated" →
      key ≠ "residuals" → key ≠ "innovations" →
      bykey ml key w = .error ("no timeseries with key " ++ key) := by
  refine ⟨by simp [bykey], by simp [bykey], by simp [bykey], by simp [bykey], ?_⟩
  intro key h1 h2 h3 h4
  simp [bykey, h1, h2, h3, h4]

/-- Witness for C2 at the key `"bogus"`. -/
theorem bykey_dispatch_witness :
    bykey exModelP "bogus" wAll = .error ("no timeseries with key " ++ "bogus") :=
  (bykey_dispatch exModelP wAll).2.2.2.2 "bogus"
    (by decide) (by decide) (by decide) (by decide)

/-- C10: `summary` with a preset outside `{all, basic, dutch}` fails with a
key-lookup error before computing any statistic (uniformly in the provider
and the primitives), with no fallback to a default preset. -/
theorem summary_unknown_preset (pr : Prims) (ml : Model) (w : Window) (sel : String)
    (h1 : sel ≠ "all") (h2 : sel ≠ "basic") (h3 : sel ≠ "dutch") :
    summary pr ml w sel = .error ("KeyError: " ++ sel) := by
  have hb2 : (sel == "basic") = false := beq_eq_false_iff_ne.mpr h2
  have hb3 : (sel == "dutch") = false := beq_eq_false_iff_ne.mpr h3
  have hlook : summaryOutput.lookup sel = none := by
    simp [summaryOutput, List.lookup, hb2, hb3]
  simp [summary, h1, hlook]

/-- Witness for C10 at the preset `"bogus"`. -/
theorem summary_unknown_preset_witness :
    summary prId exModelP wAll "bogus" = .error ("KeyError: " ++ "bogus") :=
  summary_unknown_preset prId exModelP wAll "bogus"
    (by decide) (by decide) (by decide)

/-- C1: under the spec's provider invariant (the `nparam` attribute equals
the vary-flag count), `rsq_adj` equals `1 - (N-1)/(N-Nparam) * RSS/TSS` with
`Nparam` the free-parameter count, and `bic`/`aic` use the same free-parameter
count. -/
theorem free_param_count_in_criteria (ml : Model) (w : Window)
    (h : ml.nparam = freeParamCount ml) :
    rsq_adj ml w =
      1 - (((values (ml.observations w)).length : ℚ) - 1) /
          (((values (ml.observations w)).length : ℚ) - (freeParamCount ml : ℚ)) *
          sumSq (values (ml.residuals w)) /
          (((values (ml.observations w)).map
            (fun x => (x - seriesMean (values (ml.observations w))) ^ 2)).sum) ∧
    (∀ pr : Prims,
      bic pr ml w =
        (-2 : ℚ) * pr.log (sumSq (values (ml.innovations w))) +
          (freeParamCount ml : ℚ) * pr.log ((values (ml.innovations w)).length : ℚ) ∧
      aic pr ml w =
        (-2 : ℚ) * pr.log (sumSq (values (ml.innovations w))) +
          2 * (freeParamCount ml : ℚ)) := by
  refine ⟨?_, fun pr => ⟨?_, ?_⟩⟩ <;> simp [rsq_adj, bic, aic, freeParamCount, h]

/-- Witness for C1 at a provider with one free and one fixed parameter. -/
theorem free_param_count_in_criteria_witness :
    exModelP.nparam = freeParamCount exModelP ∧
    (rsq_adj exModelP wAll =
      1 - (((values (exModelP.observations wAll)).length : ℚ) - 1) /
          (((values (exModelP.observations wAll)).length : ℚ) -
            (freeParamCount exModelP : ℚ)) *
          sumSq (values (exModelP.residuals wAll)) /
          (((values (exModelP.observations wAll)).map
            (fun x => (x - seriesMean (values (exModelP.observations wAll))) ^ 2)).sum) ∧
    (∀ pr : Prims,
      bic pr exModelP wAll =
        (-2 : ℚ) * pr.log (sumSq (values (exModelP.innovations wAll))) +
          (freeParamCount exModelP : ℚ) *
            pr.log ((values (exModelP.innovations wAll)).length : ℚ) ∧
      aic pr exModelP wAll =
        (-2 : ℚ) * pr.log (sumSq (values (exModelP.innovations wAll))) +
          2 * (freeParamCount exModelP : ℚ))) :=
  ⟨by decide, free_param_count_in_criteria exModelP wAll (by decide)⟩

/-- C7: for a window with nonzero observation variance, `evp` is the clipped
explained-variance formula, lies in [0, 100], and is 0 when the residual
variance is at least the observation variance. -/
theorem evp_clipped_bounds (ml : Model) (w : Window)
    (h : npVar (values (ml.observations w)) ≠ 0) :
    evp ml w =
      max 0 ((npVar (values (ml.observations w)) - npVar (values (ml.residuals w))) /
        npVar (values (ml.observations w)) * 100) ∧
    0 ≤ evp ml w ∧ evp ml w ≤ 100 ∧
    (npVar (values (ml.observations w)) ≤ npVar (values (ml.residuals w)) →
      evp ml w = 0) := by
  set vo := npVar (values (ml.observations w)) with hvo
  set vr := npVar (values (ml.residuals w)) with hvr
  have hpos : 0 < vo := lt_of_le_of_ne (npVar_nonneg _) (Ne.symm h)
  have hres : 0 ≤ vr := npVar_nonneg _
  have hevp : evp ml w = max 0 ((vo - vr) / vo * 100) := rfl
  refine ⟨hevp, hevp ▸ le_max_left _ _, ?_, ?_⟩
  · rw [hevp]
    apply max_le (by norm_num)
    have h1 : (vo - vr) / vo ≤ 1 := (div_le_one hpos).mpr (by linarith)
    calc (vo - vr) / vo * 100 ≤ 1 * 100 :=
          mul_le_mul_of_nonneg_right h1 (by norm_num)
      _ = 100 := one_mul _
  · intro hge
    rw [hevp]
    have h1 : (vo - vr) / vo ≤ 0 := div_nonpos_iff.mpr (Or.inr ⟨by linarith, hpos.le⟩)
    have h2 : (vo - vr) / vo * 100 ≤ 0 := by nlinarith
    exact max_eq_left h2

/-- Witness for C7 at a provider with observation variance 1 and zero
residuals. -/
theorem evp_clipped_bounds_witness :
    evp exModelP wAll =
      max 0 ((npVar (values (exModelP.observations wAll)) -
          npVar (values (exModelP.residuals wAll))) /
        npVar (values (exModelP.observations wAll)) * 100) ∧
    0 ≤ evp exModelP wAll ∧ evp exModelP wAll ≤ 100 ∧
    (npVar (values (exModelP.observations wAll)) ≤
        npVar (values (exModelP.residuals wAll)) →
      evp exModelP wAll = 0) :=
  evp_clipped_bounds exModelP wAll (by with_unfolding_all decide)

/-- C4: when the daily-resampled, gap-filled series has no timestamp on the
14th or 28th of any month, `gxg` — for every aggregator, hence also `ghg`,
`glg` and `gvg` — returns NaN rather than raising an error. -/
theorem gxg_nan_when_no_14_28
    (interp : String → Option Nat → List (Date × Option ℚ) → List (Date × Option ℚ))
    (ml : Model) (w : Window) (key : String) (fm : Option String)
    (limit : Option Nat) (output : String) (s : Series)
    (hs : bykey ml key w = .ok s)
    (hall : ∀ p ∈ applyFill interp fm limit (resampleDaily meanRed s),
      the14or28 p.1 = false) :
    (∀ year_agg, gxg interp year_agg ml w key fm limit output = .ok .nan) ∧
    ghg interp ml w key fm limit output = .ok .nan ∧
    glg interp ml w key fm limit output = .ok .nan ∧
    gvg interp ml w key fm limit output = .ok .nan := by
  have hany : ((applyFill interp fm limit (resampleDaily meanRed s)).any
      (fun p => the14or28 p.1)) = false :=
    List.any_eq_false.mpr (fun x hx => by simp [hall x hx])
  have main : ∀ year_agg, gxg interp year_agg ml w key fm limit output = .ok .nan := by
    intro year_agg
    simp [gxg, hs, hany]
  exact ⟨main, main _, main _, main _⟩

/-- Witness for C4 at a single-point series on 1 January 2000. -/
theorem gxg_nan_when_no_14_28_witness :
    (∀ year_agg,
      gxg interpolateLinear year_agg exModel3 wAll "simulated" (some "linear")
        (some 15) "mean" = .ok .nan) ∧
    ghg interpolateLinear exModel3 wAll "simulated" (some "linear") (some 15) "mean" =
      .ok .nan ∧
    glg interpolateLinear exModel3 wAll "simulated" (some "linear") (some 15) "mean" =
      .ok .nan ∧
    gvg interpolateLinear exModel3 wAll "simulated" (some "linear") (some 15) "mean" =
      .ok .nan :=
  gxg_nan_when_no_14_28 interpolateLinear exModel3 wAll "simulated" (some "linear")
    (some 15) "mean" [(janTs 1, 5)] rfl (by with_unfolding_all decide)

/-- C3 counterexample: with a series that retains no 14th/28th timestamp,
`gxg` with the invalid output string `"bogus"` returns NaN instead of failing
with an invalid-argument error. -/
theorem gxg_invalid_output_counterexample :
    gxg interpolateLinear mean_high exModel3 wAll "simulated" none none "bogus" =
      .ok .nan ∧
    ∀ e, gxg interpolateLinear mean_high exModel3 wAll "simulated" none none "bogus" ≠
      .error e := by
  have h : gxg interpolateLinear mean_high exModel3 wAll "simulated" none none "bogus" =
      .ok .nan := by with_unfolding_all rfl
  exact ⟨h, fun e he => by rw [h] at he; exact Except.noConfusion he⟩

/-- C3 (amended): provided the key is valid and the daily-resampled,
gap-filled series retains at least one 14th/28th timestamp, `gxg` with an
output argument outside `{yearly, mean}` fails with an invalid-argument error
naming the bad value. -/
theorem gxg_invalid_output_error
    (interp : String → Option Nat → List (Date × Option ℚ) → List (Date × Option ℚ))
    (year_agg : List (Date × Option ℚ) → Option ℚ) (ml : Model) (w : Window)
    (key : String) (fm : Option String) (limit : Option Nat) (output : String)
    (s : Series)
    (hs : bykey ml key w = .ok s)
    (hany : ((applyFill interp fm limit (resampleDaily meanRed s)).any
      (fun p => the14or28 p.1)) = true)
    (h1 : output ≠ "yearly") (h2 : output ≠ "mean") :
    gxg interp year_agg ml w key fm limit output =
      .error (output ++ " is not a valid output option") := by
  simp [gxg, hs, hany, h1, h2]

/-- Witness for the amended C3 at a series with a sample on 14 January 2000
and the output string `"bogus"`. -/
theorem gxg_invalid_output_error_witness :
    gxg interpolateLinear mean_high exModelW wAll "simulated" none none "bogus" =
      .error ("bogus" ++ " is not a valid output option") :=
  gxg_invalid_output_error interpolateLinear mean_high exModelW wAll "simulated"
    none none "bogus" [(janTs 14, 1)] rfl (by with_unfolding_all decide)
    (by decide) (by decide)

/-- C5 counterexample: on a provider with simulated values 1..20 over
1..20 January 2000 and zero observations, `d_ghg` (0.94 quantile based)
yields 943/50 = 18.86 while the difference of the classic `ghg` preset (only
14 January retained) yields 14, so `d_ghg` is not the difference of the
gxg-based preset. -/
theorem d_ghg_preset_counterexample :
    d_ghg exModel5 wAll = .ok (some (943 / 50)) ∧
    presetDiffGhg interpolateLinear exModel5 wAll = .ok (some 14) ∧
    (943 / 50 : ℚ) ≠ 14 :=
  ⟨by with_unfolding_all rfl, by with_unfolding_all rfl, by norm_num⟩

/-- C5 (amended): `d_ghg`, `d_glg` and `d_gvg` equal the corresponding
*quantile-based* characteristic estimator (0.94 quantile, 0.06 quantile,
spring median of the daily-median resample) evaluated on the simulated series
minus the same estimator on the observed series, over the same window. -/
theorem d_stats_quantile_difference (ml : Model) (w : Window) :
    d_ghg ml w = .ok (osub (quantileEstimate (94 / 100) (ml.simulate w))
      (quantileEstimate (94 / 100) (ml.observations w))) ∧
    d_glg ml w = .ok (osub (quantileEstimate (6 / 100) (ml.simulate w))
      (quantileEstimate (6 / 100) (ml.observations w))) ∧
    d_gvg ml w = .ok (osub (springEstimate (ml.simulate w))
      (springEstimate (ml.observations w))) := by
  refine ⟨by with_unfolding_all rfl, by with_unfolding_all rfl, ?_⟩
  have h1 := spring_code_eq_spec (resampleDaily medianRed (ml.simulate w))
  have h2 := spring_code_eq_spec (resampleDaily medianRed (ml.observations w))
  calc d_gvg ml w
      = .ok (osub
          (if (resampleDaily medianRed (ml.simulate w)).any (fun p => inspring p.1) then
            median (presentValues ((resampleDaily medianRed (ml.simulate w)).filter
              (fun p => inspring p.1)))
          else none)
          (if (resampleDaily medianRed (ml.observations w)).any (fun p => inspring p.1) then
            median (presentValues ((resampleDaily medianRed (ml.observations w)).filter
              (fun p => inspring p.1)))
          else none)) := by with_unfolding_all rfl
    _ = .ok (osub (springEstimate (ml.simulate w))
          (springEstimate (ml.observations w))) := by rw [h1, h2]; rfl

/-- C8: `q_gvg` returns the median of the daily-median-resampled values whose
date lies in the spring window; NaN when no value falls in the window, and
exactly the value itself when a single value falls in it. -/
theorem q_gvg_spring_median (ml : Model) (w : Window) (key : String) (s : Series)
    (hs : bykey ml key w = .ok s) :
    q_gvg ml w key = .ok (springMedianDaily (resampleDaily medianRed s)) ∧
    (springVals (resampleDaily medianRed s) = [] → q_gvg ml w key = .ok none) ∧
    (∀ v : ℚ, springVals (resampleDaily medianRed s) = [v] →
      q_gvg ml w key = .ok (some v)) := by
  have hmain : q_gvg ml w key = .ok (springMedianDaily (resampleDaily medianRed s)) := by
    unfold q_gvg
    rw [hs]
    simp only [Except.map]
    exact congrArg Except.ok (spring_code_eq_spec _)
  refine ⟨hmain, fun hv => ?_, fun v hv => ?_⟩
  · rw [hmain, springMedianDaily, if_pos hv]
  · rw [hmain, springMedianDaily, if_neg (by simp [hv]), hv, median_singleton]

/-- Witness for C8 at a single sample on 20 March 2000 with value 5. -/
theorem q_gvg_spring_median_witness :
    q_gvg exModel8 wAll "simulated" = .ok (some 5) :=
  (q_gvg_spring_median exModel8 wAll "simulated" [((⟨2000, 3, 20⟩, 0), 5)]
    (by with_unfolding_all rfl)).2.2 5 (by with_unfolding_all decide)

/-- C9: `many` with a list of registered identifiers (the default list when
the argument is empty) returns a single row with one column per identifier,
in order, holding exactly the value of the independent call of that statistic
with the same window. -/
theorem many_matches_independent (pr : Prims) (ml : Model) (w : Window)
    (stats : List String)
    (h : ∀ k ∈ (if stats = [] then defaultStats else stats),
      ∃ v, getStat pr ml w k = .ok v) :
    many pr ml w stats =
      .ok ((if stats = [] then defaultStats else stats).map
        (fun k => (k, statValue pr ml w k))) := by
  unfold many
  apply exceptMapM_ok
  intro k hk
  obtain ⟨v, hv⟩ := h k hk
  simp [statValue, hv, Except.map]

/-- Witness for C9 at the identifier list `["evp", "rmse"]`. -/
theorem many_matches_independent_witness :
    many prId exModelP wAll ["evp", "rmse"] =
      .ok ((if (["evp", "rmse"] : List String) = [] then defaultStats
          else ["evp", "rmse"]).map
        (fun k => (k, statValue prId exModelP wAll k))) :=
  many_matches_independent prId exModelP wAll ["evp", "rmse"] (by
    intro k hk
    simp only [if_neg (by decide : ¬(["evp", "rmse"] : List String) = [])] at hk
    simp only [List.mem_cons, List.mem_singleton] at hk
    rcases hk with rfl | rfl | hk
    · exact ⟨_, rfl⟩
    · exact ⟨_, rfl⟩
    · exact absurd hk (by simp))

/-! ## Sorted-sum lemmas for the ghg/glg comparison -/

/-- Sorting descending is reversing the ascending sort. -/
theorem sortDesc_eq_reverse_sortAsc (l : List ℚ) :
    sortDesc l = (sortAsc l).reverse := by
  apply List.eq_of_perm_of_sorted (r := (· ≥ ·))
  · exact ((List.perm_insertionSort _ l).trans
      (List.perm_insertionSort (· ≤ ·) l).symm).trans (List.reverse_perm _).symm
  · exact List.sorted_insertionSort _ l
  · rw [List.Sorted, List.pairwise_reverse]
    exact List.sorted_insertionSort (· ≤ ·) l

/-- For an ascending list, the sum of the first `k` elements is at most the
sum of the last `k` elements. -/
theorem sum_take_le_sum_drop (s : List ℚ) (hs : List.Sorted (· ≤ ·) s) (k : Nat) :
    (s.take k).sum ≤ (s.drop (s.length - k)).sum := by
  rcases le_or_lt s.length k with hk | hk
  · rw [List.take_of_length_le hk, Nat.sub_eq_zero_of_le hk, List.drop_zero]
  · apply List.Forall₂.sum_le_sum
    rw [List.forall₂_iff_get]
    refine ⟨by simp only [List.length_take, List.length_drop]; omega, ?_⟩
    intro i h1 h2
    have hi : i < k := by
      simp only [List.length_take] at h1
      omega
    have hik : s.length - k + i < s.length := by omega
    have hp := List.pairwise_iff_get.mp hs ⟨i, by omega⟩ ⟨s.length - k + i, hik⟩
      (by simp only [Fin.lt_def]; omega)
    simpa [List.get_eq_getElem, List.getElem_take, List.getElem_drop] using hp

/-- Sum of the `k` smallest values is at most the sum of the `k` largest. -/
theorem sum_nsmallest_le_sum_nlargest (l : List ℚ) (k : Nat) :
    (nsmallest k l).sum ≤ (nlargest k l).sum := by
  unfold nsmallest nlargest
  rw [sortDesc_eq_reverse_sortAsc, List.take_reverse, List.sum_reverse]
  exact sum_take_le_sum_drop (sortAsc l) (List.sorted_insertionSort _ l) k

/-- A year bin with at least one present value has a defined bottom-3 and
top-3 mean, and the former is at most the latter. -/
theorem mean_low_le_mean_high (g : List (Date × Option ℚ))
    (h : presentValues g ≠ []) :
    ∃ a b, mean_low g = some a ∧ mean_high g = some b ∧ a ≤ b := by
  have hpos : 0 < (presentValues g).length := List.length_pos.mpr h
  have hslen : (nsmallest 3 (presentValues g)).length = min 3 (presentValues g).length := by
    simp [nsmallest, List.length_take, sortAsc, List.length_insertionSort]
  have hllen : (nlargest 3 (presentValues g)).length = min 3 (presentValues g).length := by
    simp [nlargest, List.length_take, sortDesc, List.length_insertionSort]
  have hsne : nsmallest 3 (presentValues g) ≠ [] := by
    intro hc
    rw [hc] at hslen
    simp at hslen
    omega
  have hlne : nlargest 3 (presentValues g) ≠ [] := by
    intro hc
    rw [hc] at hllen
    simp at hllen
    omega
  refine ⟨(nsmallest 3 (presentValues g)).sum / (nsmallest 3 (presentValues g)).length,
    (nlargest 3 (presentValues g)).sum / (nlargest 3 (presentValues g)).length,
    ?_, ?_, ?_⟩
  · unfold mean_low listMean
    rw [if_neg hsne]
  · unfold mean_high listMean
    rw [if_neg hlne]
  · have hll : (((nsmallest 3 (presentValues g)).length : ℚ)) =
        (((nlargest 3 (presentValues g)).length : ℚ)) := by
      rw [hslen, hllen]
    rw [hll]
    have hc : (0 : ℚ) < (nlargest 3 (presentValues g)).length := by
      exact_mod_cast List.length_pos.mpr hlne
    exact (div_le_div_iff_of_pos_right hc).mpr (sum_nsmallest_le_sum_nlargest _ 3)

/-- Two `filterMap`s over the same list are pointwise related when each
element yields either two misses or two related hits. -/
theorem forall₂_filterMap_le {α : Type} (F G : α → Option ℚ) (l : List α)
    (h : ∀ y ∈ l, (F y = none ∧ G y = none) ∨
      ∃ a b, F y = some a ∧ G y = some b ∧ a ≤ b) :
    List.Forall₂ (· ≤ ·) (l.filterMap F) (l.filterMap G) := by
  induction l with
  | nil =>
    simp only [List.filterMap_nil]
    exact List.Forall₂.nil
  | cons x xs ih =>
    have hx := h x (List.mem_cons_self x xs)
    have ih' := ih (fun y hy => h y (List.mem_cons_of_mem _ hy))
    rcases hx with ⟨h1, h2⟩ | ⟨a, b, h1, h2, hab⟩
    · simpa [List.filterMap_cons, h1, h2] using ih'
    · simp only [List.filterMap_cons, h1, h2]
      exact List.Forall₂.cons hab ih'

/-- Means of pointwise-related nonempty lists are defined and related. -/
theorem listMean_le_of_forall₂ (l₁ l₂ : List ℚ)
    (hf : List.Forall₂ (· ≤ ·) l₁ l₂) (hne : l₂ ≠ []) :
    ∃ a b, listMean l₁ = some a ∧ listMean l₂ = some b ∧ a ≤ b := by
  have hlen := hf.length_eq
  have hne1 : l₁ ≠ [] := by
    intro hc
    rw [hc] at hlen
    exact hne (List.eq_nil_of_length_eq_zero hlen.symm)
  refine ⟨l₁.sum / l₁.length, l₂.sum / l₂.length, ?_, ?_, ?_⟩
  · unfold listMean
    rw [if_neg hne1]
  · unfold listMean
    rw [if_neg hne]
  · have hll : ((l₁.length : ℚ)) = ((l₂.length : ℚ)) := by rw [hlen]
    rw [hll]
    have hc : (0 : ℚ) < l₂.length := by
      exact_mod_cast List.length_pos.mpr hne
    exact (div_le_div_iff_of_pos_right hc).mpr hf.sum_le_sum

/-- C6: over the same window, key, fill method and limit, when after
resampling, filling and 14th/28th retention every calendar-year bin that
contains a retained timestamp also contains a retained sample (a non-NaN
value), and at least one bin does, the mean-output `ghg` and `glg` are both
defined and `glg ≤ ghg` (per year the mean of the 3 largest retained values
is at least the mean of the 3 smallest). -/
theorem ghg_ge_glg
    (interp : String → Option Nat → List (Date × Option ℚ) → List (Date × Option ℚ))
    (ml : Model) (w : Window) (key : String) (fm : Option String)
    (limit : Option Nat) (s : Series) (retained : List (Date × Option ℚ))
    (hs : bykey ml key w = .ok s)
    (hret : retained = (applyFill interp fm limit (resampleDaily meanRed s)).filter
      (fun p => the14or28 p.1))
    (hyr : ∀ y ∈ yearSpan retained,
      retained.filter (fun p => decide (p.1.year = y)) ≠ [] →
      presentValues (retained.filter (fun p => decide (p.1.year = y))) ≠ [])
    (hbin : ∃ y ∈ yearSpan retained,
      presentValues (retained.filter (fun p => decide (p.1.year = y))) ≠ []) :
    ∃ a b, glg interp ml w key fm limit "mean" = .ok (.mean (some a)) ∧
      ghg interp ml w key fm limit "mean" = .ok (.mean (some b)) ∧ a ≤ b := by
  obtain ⟨y0, hy0, hpv⟩ := hbin
  have hretne : retained ≠ [] := by
    intro hc
    rw [hc] at hpv
    simp [presentValues] at hpv
  have hany : ((applyFill interp fm limit (resampleDaily meanRed s)).any
      (fun p => the14or28 p.1)) = true := by
    rw [List.any_eq_true]
    obtain ⟨x, hx⟩ := List.exists_mem_of_ne_nil retained hretne
    rw [hret] at hx
    have hx' := List.mem_filter.mp hx
    exact ⟨x, hx'.1, hx'.2⟩
  have hgl : glg interp ml w key fm limit "mean" =
      .ok (.mean (yearlyMean (resampleYearly mean_low retained))) := by
    rw [hret]
    simp [glg, gxg, hs, hany]
  have hgh : ghg interp ml w key fm limit "mean" =
      .ok (.mean (yearlyMean (resampleYearly mean_high retained))) := by
    rw [hret]
    simp [ghg, gxg, hs, hany]
  have hmap_low : (resampleYearly mean_low retained).filterMap (fun p => p.2) =
      (yearSpan retained).filterMap
        (fun y => mean_low (retained.filter (fun p => decide (p.1.year = y)))) := by
    unfold resampleYearly
    rw [List.filterMap_map]
    rfl
  have hmap_high : (resampleYearly mean_high retained).filterMap (fun p => p.2) =
      (yearSpan retained).filterMap
        (fun y => mean_high (retained.filter (fun p => decide (p.1.year = y)))) := by
    unfold resampleYearly
    rw [List.filterMap_map]
    rfl
  have hf : List.Forall₂ (· ≤ ·)
      ((yearSpan retained).filterMap
        (fun y => mean_low (retained.filter (fun p => decide (p.1.year = y)))))
      ((yearSpan retained).filterMap
        (fun y => mean_high (retained.filter (fun p => decide (p.1.year = y))))) := by
    apply forall₂_filterMap_le
    intro y hy
    by_cases hpy : presentValues (retained.filter (fun p => decide (p.1.year = y))) = []
    · left
      constructor
      · unfold mean_low
        rw [hpy]
        rfl
      · unfold mean_high
        rw [hpy]
        rfl
    · right
      exact mean_low_le_mean_high _ hpy
  have hne2 : (yearSpan retained).filterMap
      (fun y => mean_high (retained.filter (fun p => decide (p.1.year = y)))) ≠ [] := by
    obtain ⟨a0, b0, -, hb0, -⟩ := mean_low_le_mean_high _ hpv
    exact List.ne_nil_of_mem (List.mem_filterMap.mpr ⟨y0, hy0, hb0⟩)
  obtain ⟨a, b, hla, hlb, hab⟩ := listMean_le_of_forall₂ _ _ hf hne2
  refine ⟨a, b, ?_, ?_, hab⟩
  · rw [hgl]
    unfold yearlyMean
    rw [hmap_low, hla]
  · rw [hgh]
    unfold yearlyMean
    rw [hmap_high, hlb]

/-- Witness for C6: retained samples 14/28 January and 14 February 2000 with
values 1, 2, 3 give glg = ghg = 2. -/
theorem ghg_ge_glg_witness :
    ∃ a b, glg interpolateLinear exModel6 wAll "simulated" none none "mean" =
        .ok (.mean (some a)) ∧
      ghg interpolateLinear exModel6 wAll "simulated" none none "mean" =
        .ok (.mean (some b)) ∧ a ≤ b :=
  ghg_ge_glg interpolateLinear exModel6 wAll "simulated" none none
    [(janTs 14, 1), (janTs 28, 2), ((⟨2000, 2, 14⟩, 0), 3)]
    [(⟨2000, 1, 14⟩, some 1), (⟨2000, 1, 28⟩, some 2), (⟨2000, 2, 14⟩, some 3)]
    (by with_unfolding_all rfl) (by with_unfolding_all decide)
    (by with_unfolding_all decide) (by with_unfolding_all decide)

end Pastas
